import Mathlib

/-!
# IPRO analytics core — shallow embedding and verification

This file embeds the analytics computation layer of the IPRO repository
(`src/analytics/estatistica.py`, `src/analytics/metrics.py`,
`src/analytics/insights.py`, `src/analytics/segmentador_pdv.py`, together
with the record declarations of `src/services/models.py`) into Lean 4 and
proves or refutes the frozen specification claims about it.

Modelling conventions:
* pandas timestamps are embedded as whole-day numbers (`ℤ`); `timedelta.days`
  between two such days is plain integer subtraction, matching the sources
  which only ever inspect `.days`.
* Python floats are embedded as exact rationals (`ℚ`).  The only values a
  claim inspects are produced by `+ - * /`, medians, quantiles and
  comparisons, which are exact in `ℚ`.
* `numpy.std(·, ddof=0)` produces a square root.  Whenever the code only
  *compares* a coefficient of variation or a Z-score against a threshold we
  embed the comparison through its exact square (documented at each site);
  whenever the code *stores* such a value we keep the radicand symbolically
  (`KPIVal.sqrtOf`).  A bridging lemma (`C9`) relates the squared comparison
  to the real |z| > t statement.
* Python `round(x, n)` is embedded by `round4`; none of the values the claims
  touch are half-way cases, where Python's banker rounding could differ.
-/

namespace IPRO

/-! ## Generic list helpers (embedding pandas primitives) -/

/-- Auxiliary for `uniqFirst`: keep the elements not yet seen. -/
def uniqFirstAux [DecidableEq α] (seen : List α) : List α → List α
  | [] => []
  | x :: xs =>
    if x ∈ seen then uniqFirstAux seen xs
    else x :: uniqFirstAux (x :: seen) xs

/-- First-occurrence deduplication: the semantics of `pandas.Series.unique`. -/
def uniqFirst [DecidableEq α] (l : List α) : List α :=
  uniqFirstAux [] l

/-- Insertion into a list sorted by the boolean relation `le`. -/
def insertLe (le : α → α → Bool) (x : α) : List α → List α
  | [] => [x]
  | y :: ys => if le x y then x :: y :: ys else y :: insertLe le x ys

/-- Insertion sort by the boolean relation `le`; embeds Python `sorted` and
the sorted group-key order of `pandas.groupby`. -/
def sortLe (le : α → α → Bool) (l : List α) : List α :=
  l.foldr (insertLe le) []

/-- Consecutive differences of a list of days: the inter-purchase intervals
every source file computes as `dates[i] - dates[i-1]`. -/
def diffs : List ℤ → List ℤ
  | a :: b :: rest => (b - a) :: diffs (b :: rest)
  | _ => []

/-- Maximum of a list of days, `0` for the empty list (all call sites are
guarded so the list is non-empty, mirroring `Series.max` on a group). -/
def listMax (l : List ℤ) : ℤ :=
  l.foldl max (l.headD 0)

/-- Minimum of a list of days, `0` for the empty list. -/
def listMin (l : List ℤ) : ℤ :=
  l.foldl min (l.headD 0)

/-- Sort rationals ascending. -/
def sortQ (l : List ℚ) : List ℚ :=
  sortLe (fun a b => decide (a ≤ b)) l

/-- Sort days ascending. -/
def sortZ (l : List ℤ) : List ℤ :=
  sortLe (fun a b => decide (a ≤ b)) l

/-- Python `max(a, b)` on numbers (kernel-reducible, unlike the lattice
`⊔` of `ℚ`). -/
def qmax (a b : ℚ) : ℚ :=
  if a ≤ b then b else a

/-- Floor of a rational (kernel-reducible): floored division of numerator
by denominator. -/
def qfloor (q : ℚ) : ℤ :=
  q.num.fdiv q.den

/-- Code-point comparison of character lists: Python / pandas string
ordering. -/
def chLt : List Char → List Char → Bool
  | [], [] => false
  | [], _ :: _ => true
  | _ :: _, [] => false
  | a :: as, b :: bs =>
    if a.toNat < b.toNat then true
    else if b.toNat < a.toNat then false
    else chLt as bs

/-- Python `a < b` on strings. -/
def strLtB (a b : String) : Bool :=
  chLt a.data b.data

/-- Python `a <= b` on strings. -/
def strLeB (a b : String) : Bool :=
  ! chLt b.data a.data

/-- Arithmetic mean, `numpy.mean`; `0` on the empty list (guarded at call
sites exactly as in the sources). -/
def mean (l : List ℚ) : ℚ :=
  l.sum / l.length

/-- Population variance (`numpy.std(·, ddof=0) ** 2`), kept as an exact
rational; the sources' standard deviation is its square root. -/
def pvariance (l : List ℚ) : ℚ :=
  ((l.map (fun x => (x - mean l) ^ 2)).sum) / l.length

/-- `numpy.median`: middle element of the sorted list, or the mean of the two
middle elements; `0` on the empty list (call sites are guarded). -/
def npMedian (l : List ℚ) : ℚ :=
  let s := sortQ l
  let n := s.length
  if n = 0 then 0
  else if n % 2 = 1 then s.getD (n / 2) 0
  else (s.getD (n / 2 - 1) 0 + s.getD (n / 2) 0) / 2

/-- `numpy.quantile` with the default linear interpolation: for probability
`p` over `n` sorted values, position `h = p(n-1)`, answer
`s[⌊h⌋] + (h-⌊h⌋)(s[⌊h⌋+1] - s[⌊h⌋])`. -/
def npQuantile (l : List ℚ) (p : ℚ) : ℚ :=
  let s := sortQ l
  let n := s.length
  if n = 0 then 0
  else
    let h : ℚ := p * ((n : ℚ) - 1)
    let i : ℕ := (qfloor h).toNat
    let lo := s.getD i 0
    let hi := s.getD (min (i + 1) (n - 1)) 0
    lo + (h - (i : ℚ)) * (hi - lo)

/-- Python `round(x, 4)`, via `⌊x·10⁴ + 1/2⌋/10⁴`.  Python rounds the
nearest double half-to-even; no value inspected by a claim is a half-way
case, where the two rules could differ. -/
def round4 (q : ℚ) : ℚ :=
  ((qfloor (q * 10000 + 1/2) : ℤ) : ℚ) / 10000

/-! ## Python dynamic values (`src/analytics/estatistica.py` inputs)

The statistics primitives receive loosely-typed sequences.  `PyVal` models
the numeric ones: a number, a numeric string (which `pd.to_numeric` coerces
successfully), a non-numeric garbage string, and `None`. -/

inductive PyVal where
  | num (q : ℚ)
  | numStr (q : ℚ)
  | junk
  | pynone
  deriving DecidableEq, Repr

/-- `pd.to_numeric(·, errors="coerce")` on one element: numbers and numeric
strings coerce, garbage and `None` become NaN (and are then dropped). -/
def PyVal.toNum? : PyVal → Option ℚ
  | .num q => some q
  | .numStr q => some q
  | .junk => none
  | .pynone => none

/-- Python truthiness of an element (`bool(e)`): zero numbers, `None` and
the empty string are falsy; `numStr`/`junk` model non-empty strings. -/
def PyVal.truthy : PyVal → Bool
  | .num q => decide (q ≠ 0)
  | .numStr _ => true
  | .junk => true
  | .pynone => false

/-- `_to_series` (`estatistica.py:9-16`): coerce each element to a number and
drop the failures. -/
def toSeries (xs : List PyVal) : List ℚ :=
  xs.filterMap PyVal.toNum?

/-- The sub-list of elements that survive numeric coercion — the claim's
"subsequence of valid values". -/
def validOnly (xs : List PyVal) : List PyVal :=
  xs.filter (fun v => v.toNum?.isSome)

/-! ## `estatistica.py` primitives -/

/-- `intervalo_confianca_giro` (`estatistica.py:45-59`): empty series gives
`(0,0)`, otherwise the `[α/2, 1-α/2]` quantiles with `α = 1 - confiança`. -/
def intervalo_confianca_giro (xs : List PyVal) (confianca : ℚ) : ℚ × ℚ :=
  let serie := toSeries xs
  if serie.isEmpty then (0, 0)
  else
    let alpha := 1 - confianca
    (npQuantile serie (alpha / 2), npQuantile serie (1 - alpha / 2))

/-- `detectar_outlier_volume` (`estatistica.py:62-77`): mask of the series;
empty series gives the empty mask, zero deviation gives all-`false`,
otherwise flags `|x-μ|/σ > t`.  The comparison is embedded through its exact
square: for `σ > 0` and `t ≥ 0`, `|x-μ|/σ > t ↔ (x-μ)² > t²σ²`, and for
`t < 0` it always holds (the bridging statement is proved in claim C9). -/
def detectar_outlier_volume (xs : List PyVal) (z_limite : ℚ) : List Bool :=
  let serie := toSeries xs
  if serie.isEmpty then []
  else
    let media := mean serie
    let v := pvariance serie
    if v = 0 then serie.map (fun _ => false)
    else serie.map (fun x =>
      if 0 ≤ z_limite then decide (z_limite ^ 2 * v < (x - media) ^ 2) else true)

/-- Square of `calcular_cv_giro` (`estatistica.py:80-88`).  The code returns
`std/mean` (a square root); we embed its exact square `σ²/μ²` to stay in `ℚ`
— two runs of the code agree exactly when their embedded squares agree,
since the coefficient of variation is non-negative. -/
def calcular_cv_giro_sq (xs : List PyVal) : ℚ :=
  let serie := toSeries xs
  if serie.isEmpty then 0
  else
    let media := mean serie
    if media = 0 then 0
    else pvariance serie / media ^ 2

/-- `score_sobrevivencia_bayesiana` (`estatistica.py:91-103`): counts the
*truthy* elements (`bool(e)`) as successes — garbage strings are truthy and
are therefore counted, not dropped — and returns the rounded Beta posterior
mean. -/
def score_sobrevivencia_bayesiana (eventos : List PyVal) (alfa beta : ℚ) : ℚ :=
  if eventos.isEmpty then 0
  else
    let sucessos : ℚ := ((eventos.filter PyVal.truthy).length : ℚ)
    let total : ℚ := (eventos.length : ℚ)
    round4 ((sucessos + alfa) / (total + alfa + beta))

/-! ### `calcular_probabilidade_recompra` and its dynamic-typing hazards

Its input is a sequence of order dates; garbage elements are only dropped
when *falsy* (`if d`), and `sorted` / the `-` operator raise `TypeError` on
unorderable mixed types.  `PyDate` models a date, a (possibly empty) string
and `None`; the function is embedded in `Except` to capture the raises. -/

inductive PyDate where
  | date (d : ℤ)
  | junkStr (s : String)
  | pynone
  deriving DecidableEq, Repr

def PyDate.truthy : PyDate → Bool
  | .date _ => true
  | .junkStr s => decide (s ≠ "")
  | .pynone => false

def PyDate.isDate : PyDate → Bool
  | .date _ => true
  | _ => false

def PyDate.getDate : PyDate → ℤ
  | .date d => d
  | _ => 0

/-- Python `sorted`: lists of length ≤ 1 need no comparison; homogeneous
lists of dates or of strings sort; a mix of dates and strings raises
`TypeError`. -/
def pySorted (l : List PyDate) : Except String (List PyDate) :=
  if l.length ≤ 1 then .ok l
  else if l.all PyDate.isDate then
    .ok (sortLe (fun a b => decide (a.getDate ≤ b.getDate)) l)
  else if l.all (fun d => ¬ d.isDate) then
    .ok (sortLe (fun a b =>
      match a, b with
      | .junkStr x, .junkStr y => strLeB x y
      | .pynone, _ => true
      | _, _ => false) l)
  else .error "TypeError: '<' not supported between str and datetime"

/-- The deltas loop `(datas[i] - datas[i-1]).days`: subtraction of
non-dates raises `TypeError`. -/
def pyDeltas (l : List PyDate) : Except String (List ℤ) :=
  if l.all PyDate.isDate then .ok (diffs (l.map PyDate.getDate))
  else .error "TypeError: unsupported operand type for -"

/-- Body of `calcular_probabilidade_recompra` after the falsy elements are
dropped (`estatistica.py:29-42`). -/
def recompraCore (kept : List PyDate) (janela : ℤ) : Except String ℚ := do
  let ordenadas ← pySorted kept
  if ordenadas.length < 2 then return 0
  let deltas ← pyDeltas ordenadas
  if deltas.isEmpty then return 0
  let hits : ℚ := ((deltas.filter (fun d => decide (d ≤ janela))).length : ℚ)
  return round4 (hits / (deltas.length : ℚ))

/-- `calcular_probabilidade_recompra` (`estatistica.py:19-42`), embedded in
`Except` because the body can raise on garbage input: empty input returns
`0`, falsy elements are dropped, and the rest is `recompraCore`. -/
def calcular_probabilidade_recompra (datas : List PyDate) (janela : ℤ) :
    Except String ℚ :=
  if datas.isEmpty then pure 0
  else recompraCore (datas.filter PyDate.truthy) janela

/-! ## Transactions and derived records (`src/services/models.py`)

A transaction record as the analytics layer consumes it.  `date` is the
order's day number; optional catalogue fields are `Option`s exactly as in
the `Transaction` model. -/

structure Tx where
  dataset_id : String
  client : String
  sku : Option String
  product : String
  order_id : String
  date : ℤ
  qty : ℚ
  subtotal : ℚ
  segment : Option String
  city : Option String
  uf : Option String
  deriving DecidableEq, Repr

/-- `CustomerAnalytics` (`models.py:51-65`).  `rfm_score` and
`segment_weight` have pydantic defaults `0.0` / `1.0`; `last_order`
defaults to `None`. -/
structure CustomerAnalytics where
  dataset_id : String
  client : String
  recency : ℤ
  frequency : ℕ
  monetary : ℚ
  avg_ticket : ℚ
  gm_cliente : ℚ
  tier : String
  segment : Option String
  city : Option String
  uf : Option String
  last_order : Option ℤ
  rfm_score : ℚ
  segment_weight : ℚ
  deriving DecidableEq, Repr

/-- `Alert` (`models.py:80-96`), with the legacy `diagnosis` /
`recommended_action` fields the insights generator fills in. -/
structure Alert where
  dataset_id : String
  client : String
  sku : Option String
  type : String
  diagnosis : String
  recommended_action : String
  reliability : String
  suggested_deadline : Option String
  deriving DecidableEq, Repr

/-! ## Metrics Engine (`src/analytics/metrics.py`) -/

/-- `MetricsCalculator._classify_customer_tier` (`metrics.py:343-357`):
the shipped classifier branches on recency / frequency / monetary and
returns emoji-labelled tiers. -/
def _classify_customer_tier (recency : ℤ) (frequency : ℕ) (monetary : ℚ) :
    String :=
  if recency ≤ 30 ∧ 5 ≤ frequency ∧ 1000 ≤ monetary then "🔥 Top"
  else if recency ≤ 60 ∧ 3 ≤ frequency ∧ 500 ≤ monetary then "⚡ Expansão"
  else if recency ≤ 90 ∧ 2 ≤ frequency then "🟡 Potencial"
  else "🔴 Baixa relevância"

/-- `pandas.Series.mode().iloc[0]`: among the most frequent values, the
smallest (pandas sorts the modes ascending). -/
def modeFirst (l : List String) : String :=
  let cands := uniqFirst l
  let best := cands.foldl (fun acc c =>
    let cnt := (l.filter (fun x => x = c)).length
    match acc with
    | none => some (c, cnt)
    | some (b, bc) =>
      if bc < cnt ∨ (bc = cnt ∧ decide (c < b)) then some (c, cnt)
      else some (b, bc)) none
  (best.map Prod.fst).getD ""

/-- Mode of the non-null values of an optional column on a client group
(`metrics.py:60-65`): `None` when every value is null. -/
def modeOpt (l : List (Option String)) : Option String :=
  let vals := l.filterMap id
  if vals.isEmpty then none else some (modeFirst vals)

/-- `MetricsCalculator._calculate_customer_turnover` (`metrics.py:242-261`):
median of the consecutive-day gaps between the client's sorted distinct
order dates; `0` for fewer than 2 rows or no gaps. -/
def _calculate_customer_turnover (rows : List Tx) : ℚ :=
  if rows.length < 2 then 0
  else
    let dates := sortZ (uniqFirst (rows.map (·.date)))
    let intervals := diffs dates
    if intervals.isEmpty then 0
    else npMedian (intervals.map (fun i => (i : ℚ)))

/-- `MetricsCalculator.calculate_customer_rfm` (`metrics.py:19-88`).
On the empty input `pd.DataFrame([])` has no `date` column, so `df['date']`
raises `KeyError`, the broad `except` catches it and the function returns
`[]`; that is the only exception a well-typed transaction list can trigger.
The `pd.notna(last_purchase)` guard (whose else-branch sets recency `-1`)
is dead here: `Transaction.date` is a required datetime, so a client group
always has a real maximum date.  The constructor call passes neither
`last_order` nor `rfm_score` nor `segment_weight`, so those keep their
model defaults. -/
def calculate_customer_rfm (dataset_id : String) (reference_date : ℤ)
    (transactions : List Tx) : List CustomerAnalytics :=
  if transactions.isEmpty then []
  else
    (uniqFirst (transactions.map (·.client))).map (fun client =>
      let client_data := transactions.filter (fun t => t.client = client)
      let last_purchase := listMax (client_data.map (·.date))
      let recency := reference_date - last_purchase
      let frequency := (uniqFirst (client_data.map (·.order_id))).length
      let monetary := (client_data.map (·.subtotal)).sum
      let avg_ticket := if 0 < frequency then monetary / (frequency : ℚ) else 0
      let gm_cliente := _calculate_customer_turnover client_data
      let tier := _classify_customer_tier recency frequency monetary
      { dataset_id := dataset_id
        client := client
        recency := recency
        frequency := frequency
        monetary := monetary
        avg_ticket := avg_ticket
        gm_cliente := gm_cliente
        tier := tier
        segment := modeOpt (client_data.map (·.segment))
        city := modeOpt (client_data.map (·.city))
        uf := modeOpt (client_data.map (·.uf))
        last_order := none
        rfm_score := 0
        segment_weight := 1 })

/-! ### Product analytics

`calculate_product_analytics` (`metrics.py:90-133`) computes per-SKU
turnover statistics and then calls the `ProductAnalytics` pydantic
constructor with the keyword arguments
`dataset_id, sku, gm_sku, gm_sku_base, gm_cluster, cv_giro, adocao`.
The model (`models.py:67-78`) requires `dataset_id, sku, product, orders,
qty, revenue`; `product`, `orders`, `qty` and `revenue` are not supplied,
so the constructor raises `ValidationError`, the broad `except` catches it
and the function returns `[]` for every input. -/

/-- Field values a pydantic constructor call can carry.  `sqrtOf q` stands
for the real number `√q` (a `numpy.std`-derived value); `sqrtOf` never needs
to be compared, only stored. -/
inductive KPIVal where
  | num (q : ℚ)
  | sqrtOf (q : ℚ)
  | str (s : String)
  | none
  deriving DecidableEq, Repr

/-- Required field names of the `ProductAnalytics` model
(`models.py:67-73`: the fields without defaults). -/
def productAnalyticsRequired : List String :=
  ["dataset_id", "sku", "product", "orders", "qty", "revenue"]

/-- pydantic construction: error unless every required field is supplied;
on success the record is the provided assoc list. -/
def pydanticConstruct (required : List String)
    (provided : List (String × KPIVal)) :
    Except String (List (String × KPIVal)) :=
  if required.all (fun f => (provided.map Prod.fst).contains f) then
    .ok provided
  else .error "ValidationError: missing required fields"

/-- `MetricsCalculator._calculate_product_turnover` (`metrics.py:263-283`):
median of all per-client consecutive-day gaps inside the SKU's rows. -/
def _calculate_product_turnover (rows : List Tx) : ℚ :=
  if rows.length < 2 then 0
  else
    let client_intervals :=
      (uniqFirst (rows.map (·.client))).flatMap (fun c =>
        let cd := rows.filter (fun t => t.client = c)
        if 2 ≤ cd.length then diffs (sortZ (uniqFirst (cd.map (·.date))))
        else [])
    if client_intervals.isEmpty then 0
    else npMedian (client_intervals.map (fun i => (i : ℚ)))

/-- `MetricsCalculator._calculate_cluster_turnover` (`metrics.py:285-302`):
median of the positive per-segment product turnovers. -/
def _calculate_cluster_turnover (rows : List Tx) : ℚ :=
  let turns :=
    (uniqFirst (rows.filterMap (·.segment))).filterMap (fun seg =>
      let t := _calculate_product_turnover
        (rows.filter (fun r => r.segment = some seg))
      if 0 < t then some t else Option.none)
  if turns.isEmpty then 0 else npMedian turns

/-- All per-client consecutive-day gaps of a row set
(`metrics.py:304-317` and `metrics.py:359-371` share this loop). -/
def clientIntervals (rows : List Tx) : List ℤ :=
  (uniqFirst (rows.map (·.client))).flatMap (fun c =>
    let cd := rows.filter (fun t => t.client = c)
    if 2 ≤ cd.length then diffs (sortZ (uniqFirst (cd.map (·.date))))
    else [])

/-- `MetricsCalculator._calculate_turnover_cv` (`metrics.py:304-327`)
returns `std/mean` — a square root; stored as `KPIVal.sqrtOf` of its exact
square `σ²/μ²` (the value is never compared by the code). -/
def _calculate_turnover_cv_val (rows : List Tx) : KPIVal :=
  let ivs := (clientIntervals rows).map (fun i => (i : ℚ))
  if ivs.length < 2 then .num 0
  else
    let m := mean ivs
    if 0 < m then .sqrtOf (pvariance ivs / m ^ 2) else .num 0

/-- `MetricsCalculator._calculate_product_adoption` (`metrics.py:329-341`). -/
def _calculate_product_adoption (rows all : List Tx) : ℚ :=
  let pc := (uniqFirst (rows.map (·.client))).length
  let total := (uniqFirst (all.map (·.client))).length
  if 0 < total then (pc : ℚ) / (total : ℚ) * 100 else 0

/-- `MetricsCalculator.calculate_product_analytics` (`metrics.py:90-133`):
the per-SKU loop followed by the failing `ProductAnalytics` construction;
any raise is caught and mapped to `[]`. -/
def calculate_product_analytics (dataset_id : String)
    (transactions : List Tx) : List (List (String × KPIVal)) :=
  let go : Except String (List (List (String × KPIVal))) := do
    if transactions.isEmpty then
      throw "KeyError: date"
    let skus := uniqFirst (transactions.map (·.sku))
    skus.mapM (fun sku => do
      let product_data := transactions.filter (fun t => t.sku = sku)
      let gm_sku := _calculate_product_turnover product_data
      let gm_sku_base := gm_sku
      let gm_cluster := _calculate_cluster_turnover product_data
      let cv_giro := _calculate_turnover_cv_val product_data
      let adocao := _calculate_product_adoption product_data transactions
      pydanticConstruct productAnalyticsRequired
        [("dataset_id", .str dataset_id),
         ("sku", match sku with | some s => .str s | Option.none => .none),
         ("gm_sku", .num gm_sku),
         ("gm_sku_base", .num gm_sku_base),
         ("gm_cluster", .num gm_cluster),
         ("cv_giro", cv_giro),
         ("adocao", .num adocao)])
  match go with
  | .ok l => l
  | .error _ => []

/-! ### General KPIs -/

/-- `MetricsCalculator._calculate_global_turnover_metrics`
(`metrics.py:359-388`): `turnover_std` is `numpy.std` of the intervals
(stored as `sqrtOf` of the variance) and `turnover_cv = std/median`
(stored as `sqrtOf (σ²/median²)` when the median is positive). -/
def _calculate_global_turnover_metrics (rows : List Tx) :
    List (String × KPIVal) :=
  let ivs := (clientIntervals rows).map (fun i => (i : ℚ))
  if ivs.isEmpty then
    [("global_turnover", .num 0), ("turnover_std", .num 0),
     ("turnover_cv", .num 0)]
  else
    let med := npMedian ivs
    let v := pvariance ivs
    [("global_turnover", .num med),
     ("turnover_std", .sqrtOf v),
     ("turnover_cv", if 0 < med then .sqrtOf (v / med ^ 2) else .num 0)]

/-- `MetricsCalculator.calculate_general_kpis` (`metrics.py:135-201`).
On the empty input the `df['date']` access raises `KeyError` and the
handler returns the *empty* dict.  The transaction schema carries no
`cost` column, so the margin block is statically skipped.  `period_start`
and `period_end` are `isoformat()` strings, embedded as the decimal
rendering of the day number. -/
def calculate_general_kpis (reference_date : ℤ) (transactions : List Tx) :
    List (String × KPIVal) :=
  if transactions.isEmpty then []
  else
    let dates := transactions.map (·.date)
    let total_revenue := (transactions.map (·.subtotal)).sum
    let clients := uniqFirst (transactions.map (·.client))
    let total_customers := clients.length
    let total_products := (uniqFirst (transactions.map (·.sku))).length
    let total_orders := (uniqFirst (transactions.map (·.order_id))).length
    let avg_ticket :=
      if 0 < total_orders then total_revenue / (total_orders : ℚ) else 0
    let period_start := listMin dates
    let period_end := listMax dates
    let recencies := clients.map (fun c =>
      reference_date - listMax ((transactions.filter
        (fun t => t.client = c)).map (·.date)))
    let frequencies := clients.map (fun c =>
      ((transactions.filter (fun t => t.client = c)).length : ℚ))
    let avg_recency := mean (recencies.map (fun r => (r : ℚ)))
    let avg_frequency := mean frequencies
    [("total_revenue", .num total_revenue),
     ("total_customers", .num (total_customers : ℚ)),
     ("total_products", .num (total_products : ℚ)),
     ("total_orders", .num (total_orders : ℚ)),
     ("avg_ticket", .num avg_ticket),
     ("avg_recency", .num avg_recency),
     ("avg_frequency", .num avg_frequency),
     ("period_start", .str (toString period_start)),
     ("period_end", .str (toString period_end)),
     ("period_days", .num ((period_end - period_start : ℤ) : ℚ))]
    ++ _calculate_global_turnover_metrics transactions

/-! ## Insights / Alert Engine (`src/analytics/insights.py`)

`InsightsGenerator` reads `RUPTURA_JANELA_ALERTA` (default `0.75`) and
`DELAY_LOGISTICO_PADRAO` (default `20`); both are passed as parameters
here.  `pandas.groupby` sorts group keys and drops rows whose grouping key
is null, which the embeddings reproduce. -/

/-- Lexicographic string-pair order used by `df.groupby(['client','sku'])`. -/
def pairLe (a b : String × String) : Bool :=
  if strLtB a.1 b.1 then true
  else if strLtB b.1 a.1 then false
  else strLeB a.2 b.2

/-- The sorted `(client, sku)` group keys of `df.groupby(['client','sku'])`
(rows with a null `sku` are dropped by pandas). -/
def groupKeysClientSku (txs : List Tx) : List (String × String) :=
  sortLe pairLe (uniqFirst (txs.filterMap
    (fun t => t.sku.map (fun s => (t.client, s)))))

/-- Rows of the `(client, sku)` group, in original order. -/
def groupRowsClientSku (txs : List Tx) (c s : String) : List Tx :=
  txs.filter (fun t => t.client = c ∧ t.sku = some s)

/-- `cv < q` for `cv = std/mean if mean > 0 else 1`: embedded through the
exact square (`σ/μ < q ↔ σ² < q²μ²` for `μ > 0`, `q ≥ 0`). -/
def cvLt (v m q : ℚ) : Bool :=
  if 0 < m then decide (v < q ^ 2 * m ^ 2) else decide ((1 : ℚ) < q)

/-- `cv ≤ q`, same embedding as `cvLt`. -/
def cvLe (v m q : ℚ) : Bool :=
  if 0 < m then decide (v ≤ q ^ 2 * m ^ 2) else decide ((1 : ℚ) ≤ q)

/-- `InsightsGenerator._calculate_reliability` (`insights.py:276-292`):
🔵 for ≥4 distinct orders, interval CV < 0.3 and <45 days since the last
purchase; 🟡 for ≥2 orders and CV ≤ 0.5; 🔴 otherwise. -/
def _calculate_reliability (reference_date : ℤ) (group : List Tx)
    (intervals : List ℤ) : String :=
  let num_orders := (uniqFirst (group.map (·.order_id))).length
  let qivs := intervals.map (fun i => (i : ℚ))
  let m := mean qivs
  let v := pvariance qivs
  let days_since_last := reference_date - listMax (group.map (·.date))
  if 4 ≤ num_orders ∧ cvLt v m (3/10) = true ∧ days_since_last < 45 then "🔵"
  else if 2 ≤ num_orders ∧ cvLe v m (1/2) = true then "🟡"
  else "🔴"

/-- The emission condition of `_generate_ruptura_alerts` for one
`(client, sku)` group: ≥2 rows, ≥2 distinct dates, and
`days_since_last ≥ median_interval · threshold + delay`. -/
def rupturaEmits (reference_date : ℤ) (ruptura_threshold delay : ℚ)
    (txs : List Tx) (c s : String) : Bool :=
  let group := groupRowsClientSku txs c s
  if group.length < 2 then false
  else
    let dates := sortZ (uniqFirst (group.map (·.date)))
    let intervals := diffs dates
    if intervals.isEmpty then false
    else
      let giro_medio := npMedian (intervals.map (fun i => (i : ℚ)))
      let days_since_last := reference_date - dates.getLastD 0
      decide (giro_medio * ruptura_threshold + delay ≤ (days_since_last : ℚ))

/-- Loop body of `_generate_ruptura_alerts` for one `(client, sku)` group
key. The Python f-string's fixed decimal formatting in the diagnosis is
abstracted to exact rendering. -/
def rupturaAlertFor (dataset_id : String) (reference_date : ℤ)
    (ruptura_threshold delay : ℚ) (txs : List Tx) (cs : String × String) :
    List Alert :=
  let group := groupRowsClientSku txs cs.1 cs.2
  if group.length < 2 then []
  else
    let dates := sortZ (uniqFirst (group.map (·.date)))
    let intervals := diffs dates
    if intervals.isEmpty then []
    else
      let giro_medio := npMedian (intervals.map (fun i => (i : ℚ)))
      let last_purchase := dates.getLastD 0
      let days_since_last := reference_date - last_purchase
      if giro_medio * ruptura_threshold + delay ≤ (days_since_last : ℚ) then
        let product := (group.head?.map (·.product)).getD ""
        [{ dataset_id := dataset_id
           client := cs.1
           sku := some cs.2
           type := "ruptura"
           diagnosis := s!"Cliente {cs.1} não compra {product} há {days_since_last} dias. Giro médio: {giro_medio} dias."
           recommended_action := "Contatar cliente em até 3 dias. Oferecer condições especiais ou verificar necessidade."
           reliability := _calculate_reliability reference_date group intervals
           suggested_deadline := some "3 dias" }]
      else []

/-- `InsightsGenerator._generate_ruptura_alerts` (`insights.py:53-106`):
for each `(client, sku)` group with ≥2 rows and ≥2 distinct dates, an alert
is emitted *only when* the days since the last purchase reach
`median_interval · ruptura_threshold + delay`. -/
def _generate_ruptura_alerts (dataset_id : String) (reference_date : ℤ)
    (ruptura_threshold delay : ℚ) (txs : List Tx) : List Alert :=
  (groupKeysClientSku txs).flatMap
    (rupturaAlertFor dataset_id reference_date ruptura_threshold delay txs)

/-- Sorted client group keys of `df.groupby('client')`. -/
def groupKeysClient (txs : List Tx) : List String :=
  sortLe strLeB (uniqFirst (txs.map (·.client)))

/-- Last order date of a client's rows (`group['date'].max()`). -/
def lastDateOf (txs : List Tx) (c : String) : ℤ :=
  listMax ((txs.filter (fun t => t.client = c)).map (·.date))

/-- Loop body of `_generate_inatividade_alerts` for one client group. -/
def inatividadeAlertFor (dataset_id : String) (reference_date : ℤ)
    (txs : List Tx) (c : String) : List Alert :=
  let group := txs.filter (fun t => t.client = c)
  let days_inactive := reference_date - listMax (group.map (·.date))
  let total_orders := (uniqFirst (group.map (·.order_id))).length
  let total_spent := (group.map (·.subtotal)).sum
  let avg_ticket := total_spent / (total_orders : ℚ)
  let mkA := fun (status urgency deadline action : String) =>
    ({ dataset_id := dataset_id
       client := c
       sku := Option.none
       type := "inatividade"
       diagnosis := s!"Cliente {c} está {status} ({days_inactive} dias). Histórico: {total_orders} pedidos, ticket médio R$ {avg_ticket}."
       recommended_action := action
       reliability := urgency
       suggested_deadline := some deadline } : Alert)
  if 90 ≤ days_inactive then
    [mkA "inativo antigo" "🔴" "1 semana"
      "Campanha de reativação com desconto especial. Verificar se mudou de fornecedor."]
  else if 60 ≤ days_inactive then
    [mkA "inativo recente" "🟡" "3 dias"
      "Contato comercial para entender motivo da ausência. Oferecer novidades."]
  else if 30 ≤ days_inactive then
    [mkA "em risco" "🔵" "2 dias"
      "Follow-up preventivo. Verificar satisfação e necessidades futuras."]
  else []

/-- `InsightsGenerator._generate_inatividade_alerts` (`insights.py:108-167`):
per client, `days_inactive = reference − last purchase`; `≥90` → "inativo
antigo"/🔴/"1 semana", `[60,90)` → "inativo recente"/🟡/"3 dias",
`[30,60)` → "em risco"/🔵/"2 dias", `<30` → no alert. -/
def _generate_inatividade_alerts (dataset_id : String) (reference_date : ℤ)
    (txs : List Tx) : List Alert :=
  (groupKeysClient txs).flatMap (inatividadeAlertFor dataset_id reference_date txs)

/-! ## PDV Segmentation (`src/analytics/segmentador_pdv.py`) -/

/-- `SegmentoPDV` (`segmentador_pdv.py:10-15`). -/
structure SegmentoPDV where
  client : String
  score : ℚ
  justificativa : String
  gatilhos : List String
  deriving DecidableEq, Repr

/-- The per-client behaviour vector of `SegmentadorPDV._vetor_cliente`
(`segmentador_pdv.py:36-50`): distinct-SKU mix, summed quantity, orders per
month (`orders / max(1, days/30 or 1)`), and the median of the consecutive
date gaps of the rows sorted by date (duplicate dates contribute zero
gaps). -/
structure VetorPDV where
  mix : ℕ
  volume : ℚ
  freq : ℚ
  giro_mediano : ℚ
  deriving DecidableEq, Repr

/-- Build the behaviour vector for one client's rows. -/
def vetorCliente (rows : List Tx) : VetorPDV :=
  let total_pedidos := (uniqFirst (rows.map (·.order_id))).length
  let dias := diffs (sortZ (rows.map (·.date)))
  let mix := (uniqFirst (rows.filterMap (·.sku))).length
  let volume := (rows.map (·.qty)).sum
  let giro := if dias.isEmpty then 0
    else npMedian (dias.map (fun i => (i : ℚ)))
  let span : ℚ :=
    ((listMax (rows.map (·.date)) - listMin (rows.map (·.date)) : ℤ) : ℚ) / 30
  let denom : ℚ := qmax 1 (if span = 0 then 1 else span)
  { mix := mix
    volume := volume
    freq := (total_pedidos : ℚ) / denom
    giro_mediano := giro }

/-- `SegmentadorPDV.avaliar` (`segmentador_pdv.py:52-97`): cohort means,
per-client clamped normalisation (`component / max(1, cohort mean)`),
weighted rounded score, trigger labels, result sorted by descending score. -/
def SegmentadorPDV.avaliar (peso_mix peso_volume peso_frequencia : ℚ)
    (txs : List Tx) : List SegmentoPDV :=
  if txs.isEmpty then []
  else
    let clients := sortLe strLeB (uniqFirst (txs.map (·.client)))
    let baseline := clients.map (fun c =>
      (c, vetorCliente (txs.filter (fun t => t.client = c))))
    let vecs := baseline.map Prod.snd
    let media_mix := mean (vecs.map (fun v => (v.mix : ℚ)))
    let media_volume := mean (vecs.map (·.volume))
    let media_freq := mean (vecs.map (·.freq))
    let media_giro := mean (vecs.map (·.giro_mediano))
    let mediana_mix := npMedian (vecs.map (fun v => (v.mix : ℚ)))
    let mediana_volume := npMedian (vecs.map (·.volume))
    let segmentos := baseline.map (fun cv =>
      let c := cv.1
      let v := cv.2
      let normal_mix := (v.mix : ℚ) / qmax 1 media_mix
      let normal_volume := v.volume / qmax 1 media_volume
      let normal_freq := v.freq / qmax 1 media_freq
      let score := normal_mix * peso_mix + normal_volume * peso_volume
        + normal_freq * peso_frequencia
      let gatilhos :=
        (if (v.mix : ℚ) < mediana_mix then ["mix abaixo do cluster"] else [])
        ++ (if v.volume < mediana_volume * (1/2) then
              ["ausência anômala de SKU esperado"] else [])
        ++ (if media_giro * (3/2) < v.giro_mediano then
              ["giro lento em relação ao cluster"] else [])
      { client := c
        score := round4 score
        justificativa := s!"Mix {v.mix} SKUs, volume {v.volume} itens, freq. {v.freq}/mês"
        gatilhos := gatilhos })
    sortLe (fun a b => decide (b.score ≤ a.score)) segmentos

/-! ## Concrete fixtures

`sampleTx` is the fixture of `src/tests/test_metrics_engine.py`
(`_sample_transactions`), with dates as day offsets from 2024-01-01. -/

def mkTx (c sku prod oid : String) (d : ℤ) (q sub : ℚ)
    (seg : Option String) : Tx :=
  { dataset_id := "d1", client := c, sku := some sku, product := prod,
    order_id := oid, date := d, qty := q, subtotal := sub,
    segment := seg, city := Option.none, uf := Option.none }

def sampleTx : List Tx :=
  [ mkTx "Cliente 1" "SKU-A" "Produto A" "1" 0 10 100 (some "Premium"),
    mkTx "Cliente 1" "SKU-A" "Produto A" "2" 15 8 90 (some "Premium"),
    mkTx "Cliente 2" "SKU-B" "Produto B" "3" 30 5 60 (some "Mid"),
    mkTx "Cliente 2" "SKU-B" "Produto B" "4" 60 5 70 (some "Mid") ]

/-- A `(client, sku)` group with two distinct orders whose last purchase is
recent (5 days after the second order, median interval 10). -/
def recentPairTx : List Tx :=
  [ mkTx "A" "S" "P" "1" 0 1 1 Option.none,
    mkTx "A" "S" "P" "2" 10 1 1 Option.none ]

/-- Single-client dataset with two orders 300 days apart: monthly frequency
`2/10 = 0.2 < 1`, so the clamped normalisation is not neutral. -/
def slowClientTx : List Tx :=
  [ mkTx "A" "S" "P" "o1" 0 5 10 Option.none,
    mkTx "A" "S" "P" "o2" 300 5 10 Option.none ]

/-- Single transaction dated 10 days *after* the reference date 0. -/
def futureTx : List Tx :=
  [ mkTx "A" "S" "P" "o1" 10 1 1 Option.none ]

/-- Single-client, single-order dataset whose behaviour vector components
are all ≥ 1 (mix 1, volume 2, monthly frequency 1). -/
def singleOrderTx : List Tx :=
  [ mkTx "A" "S" "P" "o1" 0 2 10 Option.none ]

/-- Single transaction dated 5 days before the reference date 10. -/
def pastTx : List Tx :=
  [ mkTx "A" "S" "P" "o1" 5 1 1 Option.none ]

/-- A default `Alert`, used only as the `headD` fallback in witnesses. -/
def emptyAlert : Alert :=
  { dataset_id := "", client := "", sku := Option.none, type := "",
    diagnosis := "", recommended_action := "", reliability := "",
    suggested_deadline := Option.none }

/-- Helper: `toSeries` after wrapping plain numbers is the identity. -/
theorem toSeries_num (l : List ℚ) : toSeries (l.map PyVal.num) = l := by
  induction l with
  | nil => rfl
  | cons x xs ih => simpa [toSeries, PyVal.toNum?] using ih

/-! ### Lemmas about the list helpers -/

theorem mem_insertLe (le : α → α → Bool) (x a : α) (l : List α) :
    a ∈ insertLe le x l ↔ a = x ∨ a ∈ l := by
  induction l with
  | nil => simp [insertLe]
  | cons y ys ih =>
    simp only [insertLe]
    split
    · simp
    · simp only [List.mem_cons, ih]
      tauto

theorem mem_sortLe (le : α → α → Bool) (a : α) (l : List α) :
    a ∈ sortLe le l ↔ a ∈ l := by
  induction l with
  | nil => simp [sortLe]
  | cons y ys ih =>
    simp only [sortLe, List.foldr_cons] at *
    rw [mem_insertLe, ih]
    simp

theorem mem_uniqFirstAux [DecidableEq α] (a : α) (seen l : List α) :
    a ∈ uniqFirstAux seen l ↔ a ∈ l ∧ a ∉ seen := by
  induction l generalizing seen with
  | nil => simp [uniqFirstAux]
  | cons x xs ih =>
    simp only [uniqFirstAux]
    by_cases hx : x ∈ seen
    · rw [if_pos hx, ih]
      simp only [List.mem_cons]
      constructor
      · rintro ⟨h1, h2⟩
        exact ⟨Or.inr h1, h2⟩
      · rintro ⟨h1 | h1, h2⟩
        · exact absurd (h1 ▸ hx) h2
        · exact ⟨h1, h2⟩
    · rw [if_neg hx]
      simp only [List.mem_cons, ih, List.mem_cons]
      constructor
      · rintro (rfl | ⟨h1, h2⟩)
        · exact ⟨Or.inl rfl, hx⟩
        · exact ⟨Or.inr h1, fun hs => h2 (Or.inr hs)⟩
      · rintro ⟨rfl | h1, h2⟩
        · exact Or.inl rfl
        · by_cases hax : a = x
          · exact Or.inl hax
          · exact Or.inr ⟨h1, fun hs => by
              rcases hs with rfl | hs
              · exact hax rfl
              · exact h2 hs⟩

theorem mem_uniqFirst [DecidableEq α] (a : α) (l : List α) :
    a ∈ uniqFirst l ↔ a ∈ l := by
  rw [uniqFirst, mem_uniqFirstAux]
  simp

theorem foldl_max_le (xs : List ℤ) (acc r : ℤ) (hacc : acc ≤ r)
    (h : ∀ x ∈ xs, x ≤ r) : List.foldl max acc xs ≤ r := by
  induction xs generalizing acc with
  | nil => simpa using hacc
  | cons y ys ih =>
    exact ih _ (max_le hacc (h y (List.mem_cons_self _ _)))
      (fun z hz => h z (List.mem_cons_of_mem _ hz))

/-- Every element of a non-empty list bounded by `r` bounds its maximum. -/
theorem listMax_le (l : List ℤ) (r : ℤ) (hne : l ≠ [])
    (h : ∀ x ∈ l, x ≤ r) : listMax l ≤ r := by
  match l, hne with
  | x :: xs, _ =>
    simpa [listMax] using
      foldl_max_le (x :: xs) x r (h x (List.mem_cons_self _ _)) h

theorem mean_singleton (x : ℚ) : mean [x] = x := by
  simp [mean]

theorem headD_mem (l : List α) (d : α) (h : l ≠ []) : l.headD d ∈ l := by
  cases l with
  | nil => exact absurd rfl h
  | cons x xs => simp

theorem pvariance_nonneg (l : List ℚ) : 0 ≤ pvariance l := by
  apply div_nonneg
  · apply List.sum_nonneg
    intro x hx
    simp only [List.mem_map] at hx
    obtain ⟨y, _, rfl⟩ := hx
    positivity
  · positivity

theorem toSeries_validOnly (xs : List PyVal) :
    toSeries (validOnly xs) = toSeries xs := by
  induction xs with
  | nil => rfl
  | cons x xs ih =>
    cases x <;> simpa [toSeries, validOnly, PyVal.toNum?] using ih

/-! ### Lemmas on the inactivity alert bodies -/

/-- Every alert emitted for the client group `c` carries `client = c`, the
`inatividade` type, the 30-day gate, and the deadline/urgency of its
elapsed-days band. -/
theorem inatividadeAlertFor_spec (d : String) (r : ℤ) (txs : List Tx)
    (c : String) (a : Alert) (ha : a ∈ inatividadeAlertFor d r txs c) :
    a.client = c ∧ a.type = "inatividade" ∧ 30 ≤ r - lastDateOf txs c
    ∧ (90 ≤ r - lastDateOf txs c →
        a.suggested_deadline = some "1 semana" ∧ a.reliability = "🔴")
    ∧ (60 ≤ r - lastDateOf txs c ∧ r - lastDateOf txs c < 90 →
        a.suggested_deadline = some "3 dias" ∧ a.reliability = "🟡")
    ∧ (30 ≤ r - lastDateOf txs c ∧ r - lastDateOf txs c < 60 →
        a.suggested_deadline = some "2 dias" ∧ a.reliability = "🔵") := by
  have hdays : lastDateOf txs c
      = listMax ((txs.filter (fun t => t.client = c)).map (·.date)) := rfl
  simp only [inatividadeAlertFor] at ha
  rw [← hdays] at ha
  split at ha
  · next h90 =>
    rw [List.mem_singleton] at ha
    subst ha
    refine ⟨rfl, rfl, by omega, fun _ => ⟨rfl, rfl⟩, ?_, ?_⟩ <;>
      (intro hb; omega)
  · split at ha
    · next h90 h60 =>
      rw [List.mem_singleton] at ha
      subst ha
      refine ⟨rfl, rfl, by omega, ?_, fun _ => ⟨rfl, rfl⟩, ?_⟩ <;>
        (intro hb; omega)
    · split at ha
      · next h90 h60 h30 =>
        rw [List.mem_singleton] at ha
        subst ha
        refine ⟨rfl, rfl, by omega, ?_, ?_, fun _ => ⟨rfl, rfl⟩⟩ <;>
          (intro hb; omega)
      · simp at ha

/-- When the 30-day gate holds, the client's group body is non-empty. -/
theorem inatividadeAlertFor_nonempty (d : String) (r : ℤ) (txs : List Tx)
    (c : String) (h : 30 ≤ r - lastDateOf txs c) :
    inatividadeAlertFor d r txs c ≠ [] := by
  have hdays : lastDateOf txs c
      = listMax ((txs.filter (fun t => t.client = c)).map (·.date)) := rfl
  rw [hdays] at h
  simp only [inatividadeAlertFor]
  split
  · simp
  · split
    · simp
    · simp

theorem mem_groupKeysClient (txs : List Tx) (c : String) :
    c ∈ groupKeysClient txs ↔ c ∈ txs.map (·.client) := by
  rw [groupKeysClient, mem_sortLe, mem_uniqFirst]

/-! ### Lemmas for single-client segmentation -/

theorem uniqFirstAux_of_mem [DecidableEq α] (seen : List α) (l : List α)
    (h : ∀ x ∈ l, x ∈ seen) : uniqFirstAux seen l = [] := by
  induction l with
  | nil => rfl
  | cons x xs ih =>
    rw [uniqFirstAux, if_pos (h x (List.mem_cons_self _ _))]
    exact ih (fun y hy => h y (List.mem_cons_of_mem _ hy))

/-- A non-empty constant list deduplicates to the singleton. -/
theorem uniqFirst_all_eq [DecidableEq α] (l : List α) (c : α) (hne : l ≠ [])
    (h : ∀ x ∈ l, x = c) : uniqFirst l = [c] := by
  match l, hne with
  | x :: xs, _ =>
    have hx : x = c := h x (List.mem_cons_self _ _)
    subst hx
    rw [uniqFirst, uniqFirstAux, if_neg (List.not_mem_nil x)]
    rw [uniqFirstAux_of_mem _ _ (fun y hy =>
      List.mem_singleton.mpr (h y (List.mem_cons_of_mem _ hy)))]

/-- The clamped normalisation is neutral on components at least 1. -/
theorem div_qmax_one (q : ℚ) (h : 1 ≤ q) : q / qmax 1 q = 1 := by
  rw [qmax, if_pos h]
  exact div_self (by linarith)

/-! ### Lemmas on the ruptura alert bodies -/

theorem mem_groupKeysClientSku (txs : List Tx) (c s : String) :
    (c, s) ∈ groupKeysClientSku txs ↔
      ∃ t ∈ txs, t.client = c ∧ t.sku = some s := by
  rw [groupKeysClientSku, mem_sortLe, mem_uniqFirst, List.mem_filterMap]
  constructor
  · rintro ⟨t, ht, hmap⟩
    rw [Option.map_eq_some'] at hmap
    obtain ⟨s', hs', heq⟩ := hmap
    obtain ⟨h1, h2⟩ := Prod.mk.injEq .. ▸ heq
    exact ⟨t, ht, by simp_all⟩
  · rintro ⟨t, ht, hc, hs⟩
    exact ⟨t, ht, by rw [hs, hc]; rfl⟩

/-- Every ruptura alert body element carries the group key's fields and
certifies the emission gate. -/
theorem rupturaAlertFor_spec (d : String) (r : ℤ) (thr delay : ℚ)
    (txs : List Tx) (cs : String × String) (a : Alert)
    (ha : a ∈ rupturaAlertFor d r thr delay txs cs) :
    a.client = cs.1 ∧ a.sku = some cs.2 ∧ a.type = "ruptura"
    ∧ rupturaEmits r thr delay txs cs.1 cs.2 = true := by
  simp only [rupturaAlertFor] at ha
  split at ha
  · simp at ha
  · next h2 =>
    split at ha
    · simp at ha
    · next hiv =>
      split at ha
      · next hgate =>
        rw [List.mem_singleton] at ha
        subst ha
        refine ⟨rfl, rfl, rfl, ?_⟩
        simp only [rupturaEmits]
        rw [if_neg h2, if_neg (by simpa using hiv)]
        exact decide_eq_true hgate
      · simp at ha

/-- The gate forces a non-empty ruptura body for the key. -/
theorem rupturaAlertFor_nonempty (d : String) (r : ℤ) (thr delay : ℚ)
    (txs : List Tx) (c s : String)
    (h : rupturaEmits r thr delay txs c s = true) :
    rupturaAlertFor d r thr delay txs (c, s) ≠ [] := by
  simp only [rupturaEmits] at h
  simp only [rupturaAlertFor]
  split at h
  · exact absurd h (by simp)
  · split at h
    · exact absurd h (by simp)
    · next h2 hiv =>
      rw [if_neg h2, if_neg hiv, if_pos (of_decide_eq_true h)]
      simp

/-- The gate forces at least two rows, hence a transaction with that key. -/
theorem rupturaEmits_mem (r : ℤ) (thr delay : ℚ) (txs : List Tx)
    (c s : String) (h : rupturaEmits r thr delay txs c s = true) :
    ∃ t ∈ txs, t.client = c ∧ t.sku = some s := by
  simp only [rupturaEmits] at h
  split at h
  · exact absurd h (by simp)
  · next h2 =>
    have hne : groupRowsClientSku txs c s ≠ [] := by
      intro hnil
      rw [hnil] at h2
      simp at h2
    obtain ⟨t, ht⟩ := List.exists_mem_of_ne_nil _ hne
    rw [groupRowsClientSku, List.mem_filter] at ht
    obtain ⟨ht1, ht2⟩ := ht
    simp only [decide_eq_true_eq] at ht2
    exact ⟨t, ht1, ht2⟩

end IPRO

namespace IPRO

/-! ## Claim theorems -/

/-- **C1.** Evaluation of the shipped tier classifier on the repository's
own test fixture (reference date 70 = 2024-03-11): every computed tier is
the emoji label "🟡 Potencial", which is none of `hero`/`growth`/`manter`/
`risco`, and `rfm_score` keeps its `0.0` default for every client — the
claim's rfm-score-threshold tiering does not exist in the shipped
`metrics.py`. -/
theorem C1_tier_code_eval :
    ((calculate_customer_rfm "d1" 70 sampleTx).map (·.tier)
        = ["🟡 Potencial", "🟡 Potencial"])
    ∧ ((calculate_customer_rfm "d1" 70 sampleTx).map (·.rfm_score) = [0, 0])
    ∧ "🟡 Potencial" ∉ ["hero", "growth", "manter", "risco"] := by
  refine ⟨by with_unfolding_all decide, by with_unfolding_all decide, by with_unfolding_all decide⟩

/-- **C2.** Evaluation of the shipped product analytics on the repository's
own test fixture: the result is empty (the `ProductAnalytics` constructor
is called without its required `product`/`orders`/`qty`/`revenue` fields,
so every run raises `ValidationError` and the handler returns `[]`),
although the input is non-empty — no record, and in particular no
`hero_mix` flag, is ever produced. -/
theorem C2_product_analytics_empty_eval :
    calculate_product_analytics "d1" sampleTx = [] ∧ sampleTx ≠ [] := by
  refine ⟨by with_unfolding_all decide, by with_unfolding_all decide⟩

/-- **C3 counterexample.** A `(client, sku)` group with 2 distinct orders
(days 0 and 10) evaluated 5 days after the last purchase produces *no*
ruptura alert: emission is gated by
`days_since_last ≥ median_interval·0.75 + 20` (here `5 < 27.5`), refuting
"emission is never gated by how many days have elapsed". -/
theorem C3_ruptura_gate_counterexample :
    ((uniqFirst ((groupRowsClientSku recentPairTx "A" "S").map
        (·.order_id))).length = 2)
    ∧ _generate_ruptura_alerts "d1" 15 (3/4) 20 recentPairTx = [] := by
  refine ⟨by with_unfolding_all decide, by with_unfolding_all decide⟩

set_option maxRecDepth 2000 in
/-- **C4 counterexample.** A single-client dataset (two orders 300 days
apart) has monthly frequency `0.2`; the clamped normalisation
`freq / max(1, cohort mean freq)` gives `0.2`, not `1.0`, and the score is
`0.76`, not the weight sum `1.0`. -/
theorem C4_single_client_counterexample :
    (((SegmentadorPDV.avaliar (35/100) (35/100) (30/100) slowClientTx).map
        (·.score)).length = 1)
    ∧ (((SegmentadorPDV.avaliar (35/100) (35/100) (30/100) slowClientTx).map
        (·.score)).headD 0 = 19/25)
    ∧ (19/25 : ℚ) ≠ 35/100 + 35/100 + 30/100 := by
  refine ⟨by with_unfolding_all decide,
    Rat.ext (by with_unfolding_all decide) (by with_unfolding_all decide),
    by norm_num⟩

set_option maxRecDepth 2000 in
/-- **C5 counterexample.** `calcular_probabilidade_recompra` *raises*
(`TypeError` from `sorted`) on a date mixed with a garbage string, and
`score_sobrevivencia_bayesiana` counts a garbage string as a success
(`0.6667`) instead of dropping it (the valid subsequence is empty, whose
score is `0.0`). -/
theorem C5_resilience_counterexample :
    ((calcular_probabilidade_recompra [PyDate.date 0, PyDate.junkStr "x"] 90
        |>.toOption) = Option.none)
    ∧ score_sobrevivencia_bayesiana [PyVal.junk] 1 1 = 6667/10000
    ∧ validOnly [PyVal.junk] = []
    ∧ score_sobrevivencia_bayesiana [] 1 1 = 0 := by
  refine ⟨by with_unfolding_all decide,
    Rat.ext (by with_unfolding_all decide) (by with_unfolding_all decide),
    by with_unfolding_all decide, by with_unfolding_all decide⟩

/-- **C6 (amended).** On the empty transaction set neither entry point
raises: `calculate_customer_rfm` returns the empty list and
`calculate_general_kpis` returns the *empty* dictionary (the `KeyError`
on the missing `date` column is swallowed by the handler, which returns
`{}` — not a zero-valued dictionary). -/
theorem C6_empty_input_contract :
    calculate_customer_rfm "d1" 0 [] = []
    ∧ calculate_general_kpis 0 [] = [] := by
  refine ⟨by with_unfolding_all decide, by with_unfolding_all decide⟩

/-- **C6 counterexample.** On the empty transaction set the KPI dictionary
contains no keys at all — in particular no zero-valued `total_revenue` —
refuting "every documented KPI key present with a zero value". -/
theorem C6_empty_kpis_counterexample :
    (calculate_general_kpis 0 []).lookup "total_revenue" = Option.none := by
  decide

/-- **C7 counterexample.** A client whose only order is dated 10 days
after the reference date gets `recency = -10 < 0`: recency is not always
non-negative. -/
theorem C7_recency_counterexample :
    ((calculate_customer_rfm "d1" 0 futureTx).map (·.recency) = [-10])
    ∧ ¬ (0 ≤ (-10 : ℤ)) := by
  refine ⟨by with_unfolding_all decide, by with_unfolding_all decide⟩

/-- **C7 (amended).** Whenever every order date is on or before the
reference timestamp, every computed `CustomerAnalytics` has a non-negative
recency. -/
theorem C7_recency_nonneg (d : String) (r : ℤ) (txs : List Tx)
    (h : ∀ t ∈ txs, t.date ≤ r) :
    ∀ ca ∈ calculate_customer_rfm d r txs, 0 ≤ ca.recency := by
  intro ca hca
  unfold calculate_customer_rfm at hca
  split at hca
  · simp at hca
  · simp only [List.mem_map] at hca
    obtain ⟨c, hc, rfl⟩ := hca
    show 0 ≤ r - listMax ((txs.filter (fun t => t.client = c)).map (·.date))
    rw [mem_uniqFirst] at hc
    simp only [List.mem_map] at hc
    obtain ⟨t, ht, rfl⟩ := hc
    have hmem : t ∈ txs.filter (fun x => x.client = t.client) := by
      simp [List.mem_filter, ht]
    have hne : (txs.filter (fun x => x.client = t.client)).map (·.date) ≠ [] := by
      intro heq
      have := List.mem_map_of_mem (·.date) hmem
      rw [heq] at this
      exact absurd this (List.not_mem_nil _)
    have hle : ∀ x ∈ (txs.filter (fun x => x.client = t.client)).map (·.date),
        x ≤ r := by
      intro x hx
      simp only [List.mem_map, List.mem_filter] at hx
      obtain ⟨u, ⟨hu, _⟩, rfl⟩ := hx
      exact h u hu
    have := listMax_le _ r hne hle
    omega

set_option maxRecDepth 2000 in
/-- Witness for C7: a one-transaction dataset dated 5 days before the
reference date 10 yields a non-negative recency. -/
theorem C7_recency_nonneg_witness :
    0 ≤ ((calculate_customer_rfm "d1" 10 pastTx).headD
      { dataset_id := "", client := "", recency := 0, frequency := 0,
        monetary := 0, avg_ticket := 0, gm_cliente := 0, tier := "",
        segment := Option.none, city := Option.none, uf := Option.none,
        last_order := Option.none, rfm_score := 0,
        segment_weight := 1 }).recency :=
  C7_recency_nonneg "d1" 10 pastTx (by decide) _
    (headD_mem _ _ (by with_unfolding_all decide))

/-- **C8.** The turnover confidence interval returns `(0,0)` on the empty
input, returns the `[α/2, 1-α/2]` linear-interpolation quantiles with
`α = 1 - confidence` on any non-empty numeric input, and on
`[10,12,14,16,18]` with confidence `0.8` returns exactly
`(10.8, 17.2) = (54/5, 86/5)`. -/
theorem C8_confidence_interval :
    (∀ c : ℚ, intervalo_confianca_giro [] c = (0, 0))
    ∧ (∀ (x : ℚ) (xs : List ℚ) (c : ℚ),
        intervalo_confianca_giro ((x :: xs).map PyVal.num) c
          = (npQuantile (x :: xs) ((1 - c) / 2),
             npQuantile (x :: xs) (1 - (1 - c) / 2)))
    ∧ intervalo_confianca_giro ([10,12,14,16,18].map PyVal.num) (4/5)
        = (54/5, 86/5) := by
  refine ⟨fun c => rfl, fun x xs c => ?_, by with_unfolding_all decide⟩
  simp only [intervalo_confianca_giro, toSeries_num]
  rfl

/-- **C10.** A client gets an inatividade alert iff it occurs in the
transaction set and at least 30 days elapsed since its last purchase;
every emitted alert of that client carries the deadline and urgency marker
of its elapsed-days band: `≥90` → "1 semana"/🔴, `[60,90)` → "3 dias"/🟡,
`[30,60)` → "2 dias"/🔵.  In particular a client active within the last 30
days produces no alert. -/
theorem C10_inatividade_bands (d : String) (r : ℤ) (txs : List Tx)
    (c : String) :
    ((∃ a ∈ _generate_inatividade_alerts d r txs, a.client = c) ↔
      (c ∈ txs.map (·.client) ∧ 30 ≤ r - lastDateOf txs c))
    ∧ (∀ a ∈ _generate_inatividade_alerts d r txs, a.client = c →
        ((90 ≤ r - lastDateOf txs c →
            a.suggested_deadline = some "1 semana" ∧ a.reliability = "🔴")
        ∧ (60 ≤ r - lastDateOf txs c ∧ r - lastDateOf txs c < 90 →
            a.suggested_deadline = some "3 dias" ∧ a.reliability = "🟡")
        ∧ (30 ≤ r - lastDateOf txs c ∧ r - lastDateOf txs c < 60 →
            a.suggested_deadline = some "2 dias" ∧ a.reliability = "🔵"))) := by
  constructor
  · constructor
    · rintro ⟨a, ha, rfl⟩
      rw [_generate_inatividade_alerts, List.mem_flatMap] at ha
      obtain ⟨k, hk, hak⟩ := ha
      obtain ⟨hc, _, h30, _⟩ := inatividadeAlertFor_spec d r txs k a hak
      subst hc
      rw [mem_groupKeysClient] at hk
      exact ⟨hk, h30⟩
    · rintro ⟨hc, h30⟩
      obtain ⟨a, ha⟩ := List.exists_mem_of_ne_nil _
        (inatividadeAlertFor_nonempty d r txs c h30)
      refine ⟨a, ?_, (inatividadeAlertFor_spec d r txs c a ha).1⟩
      rw [_generate_inatividade_alerts, List.mem_flatMap]
      exact ⟨c, (mem_groupKeysClient txs c).mpr hc, ha⟩
  · intro a ha hac
    rw [_generate_inatividade_alerts, List.mem_flatMap] at ha
    obtain ⟨k, _, hak⟩ := ha
    obtain ⟨hc, _, _, h1, h2, h3⟩ := inatividadeAlertFor_spec d r txs k a hak
    rw [hac] at hc
    subst hc
    exact ⟨h1, h2, h3⟩

/-- **C4 (amended).** On a single-client dataset the cohort mean equals
the client's own vector, so each clamped ratio is
`component / max(1, component)`; whenever the client's mix, volume and
monthly frequency are all ≥ 1 the three ratios are exactly `1` and the
(sole) score is the rounded weight sum. -/
theorem C4_single_client_neutral (w1 w2 w3 : ℚ) (txs : List Tx) (c : String)
    (hne : txs ≠ []) (hall : ∀ t ∈ txs, t.client = c)
    (hmix : 1 ≤ ((vetorCliente txs).mix : ℚ))
    (hvol : 1 ≤ (vetorCliente txs).volume)
    (hfreq : 1 ≤ (vetorCliente txs).freq) :
    ((SegmentadorPDV.avaliar w1 w2 w3 txs).map (·.score)
        = [round4 (w1 + w2 + w3)])
    ∧ ((vetorCliente txs).mix : ℚ) / qmax 1 ((vetorCliente txs).mix : ℚ) = 1
    ∧ (vetorCliente txs).volume / qmax 1 (vetorCliente txs).volume = 1
    ∧ (vetorCliente txs).freq / qmax 1 (vetorCliente txs).freq = 1 := by
  have hfilter : txs.filter (fun t => t.client = c) = txs :=
    List.filter_eq_self.mpr (fun t ht => by simp [hall t ht])
  have hclients : sortLe strLeB (uniqFirst (txs.map (·.client))) = [c] := by
    rw [uniqFirst_all_eq (txs.map (·.client)) c
      (by simpa using hne)
      (by intro x hx; simp only [List.mem_map] at hx
          obtain ⟨t, ht, rfl⟩ := hx; exact hall t ht)]
    rfl
  have hisEmpty : txs.isEmpty = false := by
    cases txs with
    | nil => exact absurd rfl hne
    | cons a l => rfl
  refine ⟨?_, div_qmax_one _ hmix, div_qmax_one _ hvol, div_qmax_one _ hfreq⟩
  rw [SegmentadorPDV.avaliar]
  rw [if_neg (by simp [hisEmpty])]
  rw [hclients]
  simp only [List.map_cons, List.map_nil, hfilter, mean_singleton]
  rw [div_qmax_one _ hmix, div_qmax_one _ hvol, div_qmax_one _ hfreq]
  simp only [one_mul, sortLe, List.foldr, insertLe, List.map_cons, List.map_nil]

set_option maxRecDepth 2000 in
/-- Witness for C4: a single order of quantity 2 gives mix 1, volume 2 and
monthly frequency 1, so the score is the rounded default weight sum. -/
theorem C4_single_client_neutral_witness :
    (SegmentadorPDV.avaliar (35/100) (35/100) (30/100) singleOrderTx).map
        (·.score) = [round4 (35/100 + 35/100 + 30/100)] :=
  (C4_single_client_neutral (35/100) (35/100) (30/100) singleOrderTx "A"
    (by decide) (by decide)
    (by with_unfolding_all decide)
    (by with_unfolding_all decide)
    (by with_unfolding_all decide)).1

/-- **C3 (amended).** A `(client, sku)` group yields a ruptura alert iff
the gate `rupturaEmits` holds: the group has ≥2 rows, ≥2 distinct purchase
dates, and the days since the last purchase reach
`median_interval · ruptura_threshold + logistics_delay` — emission *is*
gated by the elapsed days, for any threshold/delay configuration. -/
theorem C3_ruptura_gated (d : String) (r : ℤ) (thr delay : ℚ)
    (txs : List Tx) (c s : String) :
    (∃ a ∈ _generate_ruptura_alerts d r thr delay txs,
        a.client = c ∧ a.sku = some s)
      ↔ rupturaEmits r thr delay txs c s = true := by
  constructor
  · rintro ⟨a, ha, hac, has⟩
    rw [_generate_ruptura_alerts, List.mem_flatMap] at ha
    obtain ⟨k, _, hak⟩ := ha
    obtain ⟨h1, h2, _, hem⟩ := rupturaAlertFor_spec d r thr delay txs k a hak
    rw [hac] at h1
    rw [has] at h2
    obtain rfl : k = (c, s) := by
      obtain ⟨k1, k2⟩ := k
      simp only at h1 h2
      rw [← h1, Option.some_inj.mp h2]
    exact hem
  · intro h
    obtain ⟨a, ha⟩ := List.exists_mem_of_ne_nil _
      (rupturaAlertFor_nonempty d r thr delay txs c s h)
    obtain ⟨h1, h2, _, _⟩ := rupturaAlertFor_spec d r thr delay txs (c, s) a ha
    refine ⟨a, ?_, h1, h2⟩
    rw [_generate_ruptura_alerts, List.mem_flatMap]
    refine ⟨(c, s), ?_, ha⟩
    exact (mem_groupKeysClientSku txs c s).mpr (rupturaEmits_mem r thr delay txs c s h)

/-- Witness for C10: a single transaction 35 days before the reference
date produces an alert in the `[30,60)` band with deadline "2 dias". -/
theorem C10_inatividade_bands_witness :
    ((_generate_inatividade_alerts "d1" 40 pastTx).headD
        emptyAlert).suggested_deadline = some "2 dias" := by
  have hm := headD_mem (_generate_inatividade_alerts "d1" 40 pastTx)
    emptyAlert (by with_unfolding_all decide)
  have h := (C10_inatividade_bands "d1" 40 pastTx "A").2 _ hm
    (by with_unfolding_all decide)
  exact (h.2.2 ⟨by decide, by decide⟩).1


theorem isEmpty_map (f : α → β) (l : List α) :
    (l.map f).isEmpty = l.isEmpty := by
  cases l <;> rfl

theorem except_bind_ok (a : α) (f : α → Except String ℚ) :
    (Except.ok a >>= f : Except String ℚ) = f a := rfl

theorem filter_idem (p : α → Bool) (l : List α) :
    (l.filter p).filter p = l.filter p := by
  induction l with
  | nil => rfl
  | cons x xs ih =>
    by_cases h : p x
    · simp [List.filter_cons, h, ih]
    · simp [List.filter_cons, h, ih]

theorem truthyIndicator_filter_length (es : List PyVal) :
    ((es.map (fun e => if e.truthy then PyVal.num 1 else PyVal.num 0)).filter
        PyVal.truthy).length = (es.filter PyVal.truthy).length := by
  have t1 : PyVal.truthy (PyVal.num 1) = true := by decide
  have t0 : PyVal.truthy (PyVal.num 0) = false := by decide
  induction es with
  | nil => rfl
  | cons e es ih =>
    by_cases h : e.truthy
    · simp [List.filter_cons, h, t1, ih]
    · simp [List.filter_cons, h, t0, ih]

theorem sortLe_all (le : α → α → Bool) (p : α → Bool) (l : List α)
    (h : l.all p = true) : (sortLe le l).all p = true := by
  rw [List.all_eq_true] at h ⊢
  intro x hx
  exact h x ((mem_sortLe le x l).mp hx)

theorem recompraCore_dates_ok (l : List ℤ) (j : ℤ) :
    (recompraCore (l.map PyDate.date) j).toOption.isSome = true := by
  have hall : (l.map PyDate.date).all PyDate.isDate = true := by
    rw [List.all_eq_true]
    intro x hx
    obtain ⟨d, _, rfl⟩ := List.mem_map.mp hx
    rfl
  rw [recompraCore]
  by_cases hlen : (l.map PyDate.date).length ≤ 1
  · rw [pySorted, if_pos hlen, except_bind_ok]
    rw [if_pos (by omega : (l.map PyDate.date).length < 2)]
    rfl
  · rw [pySorted, if_neg hlen, if_pos hall, except_bind_ok]
    have hall2 : (sortLe (fun a b => decide (a.getDate ≤ b.getDate))
        (l.map PyDate.date)).all PyDate.isDate = true :=
      sortLe_all _ _ _ hall
    split
    · rfl
    · rw [pyDeltas, if_pos hall2, except_bind_ok]
      split
      · rfl
      · rfl


/-- **C5 (amended).** The series-based primitives (confidence interval,
outlier detection, CV) coerce-and-drop, so each equals its value on the
valid subsequence; the survival score never raises but depends only on the
truthiness of its elements (garbage counts as a success rather than being
dropped); the repurchase probability drops exactly the falsy elements and
always succeeds on homogeneous date input. -/
theorem C5_coerce_and_drop :
    (∀ (xs : List PyVal) (c : ℚ),
      intervalo_confianca_giro xs c = intervalo_confianca_giro (validOnly xs) c)
    ∧ (∀ (xs : List PyVal) (t : ℚ),
      detectar_outlier_volume xs t = detectar_outlier_volume (validOnly xs) t)
    ∧ (∀ xs : List PyVal,
      calcular_cv_giro_sq xs = calcular_cv_giro_sq (validOnly xs))
    ∧ (∀ (es : List PyVal) (a b : ℚ),
      score_sobrevivencia_bayesiana es a b
        = score_sobrevivencia_bayesiana
            (es.map (fun e => if e.truthy then PyVal.num 1 else PyVal.num 0)) a b)
    ∧ (∀ (ds : List PyDate) (j : ℤ),
      calcular_probabilidade_recompra ds j
        = calcular_probabilidade_recompra (ds.filter PyDate.truthy) j)
    ∧ (∀ (ds : List ℤ) (j : ℤ),
      (calcular_probabilidade_recompra (ds.map PyDate.date) j).toOption.isSome
        = true) := by
  refine ⟨?_, ?_, ?_, ?_, ?_, ?_⟩
  · intro xs c
    simp only [intervalo_confianca_giro, toSeries_validOnly]
  · intro xs t
    simp only [detectar_outlier_volume, toSeries_validOnly]
  · intro xs
    simp only [calcular_cv_giro_sq, toSeries_validOnly]
  · intro es a b
    simp only [score_sobrevivencia_bayesiana, isEmpty_map,
      truthyIndicator_filter_length, List.length_map]
  · intro ds j
    by_cases hds : ds = []
    · subst hds; rfl
    · have h1 : ds.isEmpty = false := by
        cases ds with
        | nil => exact absurd rfl hds
        | cons a l => rfl
      rw [calcular_probabilidade_recompra, calcular_probabilidade_recompra, h1]
      by_cases hf : ds.filter PyDate.truthy = []
      · rw [hf]
        rfl
      · have h2 : (ds.filter PyDate.truthy).isEmpty = false := by
          cases hfl : ds.filter PyDate.truthy with
          | nil => exact absurd hfl hf
          | cons a l => rfl
        rw [h2, filter_idem]
  · intro ds j
    by_cases hds : ds = []
    · subst hds; rfl
    · have h1 : (ds.map PyDate.date).isEmpty = false := by
        cases ds with
        | nil => exact absurd rfl hds
        | cons a l => rfl
      rw [calcular_probabilidade_recompra, h1]
      have hfe : (ds.map PyDate.date).filter PyDate.truthy = ds.map PyDate.date :=
        List.filter_eq_self.mpr (fun a ha => by
          obtain ⟨d, _, rfl⟩ := List.mem_map.mp ha
          rfl)
      simp only [Bool.false_eq_true, if_false, hfe]
      exact recompraCore_dates_ok ds j


/-- For `t ≥ 0` and variance `v > 0`, the squared comparison used by the
embedding is exactly the Z-score comparison `|a|/σ > t` over the reals. -/
theorem zscore_bridge (t v a : ℚ) (ht : 0 ≤ t) (hv : 0 < v) :
    (t^2 * v < a^2) ↔ (t : ℝ) < |(a : ℝ)| / Real.sqrt ((v : ℚ) : ℝ) := by
  have hvR : (0:ℝ) < ((v : ℚ) : ℝ) := by exact_mod_cast hv
  have hs : 0 < Real.sqrt ((v : ℚ) : ℝ) := Real.sqrt_pos.mpr hvR
  rw [lt_div_iff₀ hs]
  constructor
  · intro h
    have hcast : ((t:ℝ))^2 * ((v : ℚ) : ℝ) < ((a : ℚ):ℝ)^2 := by exact_mod_cast h
    have h2 : ((t:ℝ) * Real.sqrt ((v : ℚ) : ℝ))^2 < |((a : ℚ):ℝ)|^2 := by
      calc ((t:ℝ) * Real.sqrt ((v : ℚ) : ℝ))^2
          = (t:ℝ)^2 * (Real.sqrt ((v : ℚ) : ℝ))^2 := by ring
        _ = (t:ℝ)^2 * ((v : ℚ) : ℝ) := by rw [Real.sq_sqrt hvR.le]
        _ < ((a : ℚ):ℝ)^2 := hcast
        _ = |((a : ℚ):ℝ)|^2 := (sq_abs _).symm
    exact lt_of_pow_lt_pow_left₀ 2 (abs_nonneg _) h2
  · intro h
    have h2 : ((t:ℝ) * Real.sqrt ((v : ℚ) : ℝ))^2 < |((a : ℚ):ℝ)|^2 :=
      pow_lt_pow_left₀ h (mul_nonneg (by exact_mod_cast ht) hs.le) (by norm_num)
    have h3 : ((t:ℝ))^2 * ((v : ℚ) : ℝ) < ((a : ℚ):ℝ)^2 := by
      calc (t:ℝ)^2 * ((v : ℚ) : ℝ)
          = ((t:ℝ) * Real.sqrt ((v : ℚ) : ℝ))^2 := by
            rw [mul_pow, Real.sq_sqrt hvR.le]
        _ < |((a : ℚ):ℝ)|^2 := h2
        _ = ((a : ℚ):ℝ)^2 := sq_abs _
    exact_mod_cast h3


/-- **C9.** The outlier mask has the input's length and positions; a zero
population variance yields the all-false mask; otherwise position `i` is
flagged exactly when the real Z-score `|xᵢ-μ|/σ` exceeds the threshold;
and on `[10,11,12,100,11,9]` with threshold 2 exactly index 3 is flagged. -/
theorem C9_outlier_mask :
    (∀ (xs : List ℚ) (t : ℚ), 0 ≤ t →
      (detectar_outlier_volume (xs.map PyVal.num) t).length = xs.length
      ∧ (pvariance xs = 0 →
          ∀ b ∈ detectar_outlier_volume (xs.map PyVal.num) t, b = false)
      ∧ (pvariance xs ≠ 0 → ∀ i, i < xs.length →
          ((detectar_outlier_volume (xs.map PyVal.num) t).getD i false = true
            ↔ (t : ℝ) < |((xs.getD i 0 - mean xs : ℚ) : ℝ)|
                / Real.sqrt ((pvariance xs : ℚ) : ℝ))))
    ∧ detectar_outlier_volume ([10,11,12,100,11,9].map PyVal.num) 2
        = [false, false, false, true, false, false] := by
  constructor
  · intro xs t ht
    have hdet : detectar_outlier_volume (xs.map PyVal.num) t
        = (if xs.isEmpty then []
           else if pvariance xs = 0 then xs.map (fun _ => false)
           else xs.map (fun x =>
             if 0 ≤ t then decide (t ^ 2 * pvariance xs < (x - mean xs) ^ 2)
             else true)) := by
      simp only [detectar_outlier_volume, toSeries_num]
    by_cases hxe : xs = []
    · subst hxe
      refine ⟨rfl, fun _ b hb => ?_, fun hv _ h1 => absurd h1 (by simp)⟩
      rw [hdet] at hb
      simp at hb
    · have hne : xs.isEmpty = false := by
        cases xs with
        | nil => exact absurd rfl hxe
        | cons a l => rfl
      by_cases hv : pvariance xs = 0
      · rw [hdet, hne]
        simp only [Bool.false_eq_true, if_false, if_pos hv]
        refine ⟨List.length_map _ _, fun _ b hb => ?_, fun hv2 => absurd hv hv2⟩
        obtain ⟨y, _, rfl⟩ := List.mem_map.mp hb
        rfl
      · rw [hdet, hne]
        simp only [Bool.false_eq_true, if_false, if_neg hv]
        refine ⟨List.length_map _ _, fun hv2 => absurd hv2 hv, fun _ i h1 => ?_⟩
        have hvpos : 0 < pvariance xs :=
          lt_of_le_of_ne (pvariance_nonneg xs) (Ne.symm hv)
        have hlen : i < (xs.map (fun x =>
            if 0 ≤ t then decide (t ^ 2 * pvariance xs < (x - mean xs) ^ 2)
            else true)).length := by simpa using h1
        rw [List.getD_eq_getElem _ _ hlen, List.getElem_map,
          List.getD_eq_getElem _ _ h1]
        rw [if_pos ht, decide_eq_true_iff]
        exact zscore_bridge t (pvariance xs) (xs[i] - mean xs) ht hvpos
  · with_unfolding_all decide

/-- Witness for C9 at the spec's own example input and threshold 2. -/
theorem C9_outlier_mask_witness :
    (detectar_outlier_volume ([10,11,12,100,11,9].map PyVal.num) 2).length
      = 6 := by
  have h := (C9_outlier_mask.1 [10,11,12,100,11,9] 2 (by norm_num)).1
  simpa using h

end IPRO
